import Mathlib

/-!
Shallow embedding of the QuizAPI service (src/app.py) and verification of its
specification claims.

Modelling conventions:
  * Timestamps (`datetime` values) are `Int` counts of seconds; naive datetimes
    compare chronologically, which the integer order reflects.  The
    `timedelta(minutes=5)` grace period is the constant 300 seconds.
  * `datetime.fromisoformat` is an external library call; the embedding is
    parameterised by a date parser `parseDate : String -> Option Int`
    (`none` models the `ValueError` the Python call raises on a malformed
    string).  Every theorem quantifies over the parser, so nothing depends on
    which strings happen to parse.
  * Python's builtin `int(s)` on a string is `pyInt?`: surrounding whitespace
    stripped, optional sign, at least one digit; `none` models `ValueError`.
  * `str.split(",")` is `String.splitOn ","` (same semantics, including
    `"" -> [""]`); `str.strip()` is `String.trim`.
  * A Mongo ObjectId constructed from a `str` is valid exactly when the string
    is 24 hex characters; `bson.objectid.ObjectId` raises `InvalidId`
    otherwise.
  * The `quizzes` collection is a list of `(id, document)` pairs; the stored
    document fields mirror `Quiz.__dict__` (the vestigial `id = None` attribute
    is dropped because the identifier lives as the store key `_id`).
  * A Flask `abort(400/403/404, msg)` is an `Except.error` carrying the
    validation/HTTP-mapped kind; a Python exception that no handler catches
    (`ValueError`, `TypeError`, `AttributeError` inside `create_quiz`) is the
    distinct kind `CreateError.unhandled`, since Flask turns it into a 500
    internal error, not a 400 validation response.  An `Except.error` result
    means no document was inserted.
-/

set_option autoImplicit false

namespace QuizAPI

/-- The stored quiz document (`Quiz.__dict__` from src/app.py, lines 16-24):
`question`, `options`, `right_answer`, `start_date`, `end_date`, and the
cached `status` flag (the spec's `active`), initialised to `False`. -/
structure Quiz where
  question : Option String
  options : List String
  right_answer : Int
  start_date : Int
  end_date : Int
  status : Bool
deriving DecidableEq, Repr

/-- The `quizzes` Mongo collection: documents keyed by their `_id` string. -/
abbrev Store := List (String × Quiz)

/-- `str(request.form.get("options"))`: Python's `str` applied to the value of
an optional form field, coercing an absent field (`None`) to the literal
string `"None"` (src/app.py line 98). -/
def pyStr : Option String → String
  | none => "None"
  | some s => s

/-- The ASCII whitespace Python's `str.strip()` removes. -/
def isPySpace (c : Char) : Bool :=
  c = ' ' || c = '\t' || c = '\n' || c = '\x0d' || c = '\x0b' || c = '\x0c'

/-- `str.strip()` on a character list: drop whitespace from both ends. -/
def trimChars (cs : List Char) : List Char :=
  ((cs.dropWhile isPySpace).reverse.dropWhile isPySpace).reverse

/-- Python `s.split(",")` on a character list: split at every comma, keeping
empty pieces (so `"" -> [""]` and `"a," -> ["a", ""]`, as in Python). -/
def splitCommaChars : List Char → List (List Char)
  | [] => [[]]
  | c :: cs =>
      match splitCommaChars cs with
      | [] => if c = ',' then [[], [c]] else [[c]]
      | g :: gs => if c = ',' then [] :: g :: gs else (c :: g) :: gs

/-- Decimal value of a digit list (most significant first). -/
def digitsToNat (ds : List Char) : Nat :=
  ds.foldl (fun n c => 10 * n + (c.toNat - 48)) 0

/-- Python `int(s)` on a string: surrounding whitespace stripped, an optional
sign, then at least one decimal digit; `none` models the `ValueError` raised
otherwise. -/
def pyInt? (s : String) : Option Int :=
  match trimChars s.data with
  | [] => none
  | '-' :: ds =>
      if ds ≠ [] ∧ ds.all Char.isDigit then some (-(digitsToNat ds : Int))
      else none
  | '+' :: ds =>
      if ds ≠ [] ∧ ds.all Char.isDigit then some (digitsToNat ds : Int)
      else none
  | ds =>
      if ds.all Char.isDigit then some (digitsToNat ds : Int) else none

/-- `[option.strip() for option in s.split(",")]` (src/app.py lines 87/111). -/
def splitTrim (s : String) : List String :=
  (splitCommaChars s.data).map (fun cs => String.mk (trimChars cs))

/-- `ObjectId(s)` on a `str` succeeds exactly for 24-character hex strings;
otherwise `bson` raises `InvalidId`. -/
def isValidObjectId (s : String) : Bool :=
  s.length == 24 && s.toList.all
    (fun c => c.isDigit || ('a' ≤ c && c ≤ 'f') || ('A' ≤ c && c ≤ 'F'))

/-- `quizzes_collection.find_one({"_id": ObjectId(quiz_id)})`. -/
def findById (store : Store) (quiz_id : String) : Option Quiz :=
  (store.find? (fun p => p.1 == quiz_id)).map (fun p => p.2)

/-- First bulk update of `update_quiz_status` (src/app.py lines 53-55):
`update_many({"start_date": {"$lte": now}}, {"$set": {"status": True}})`. -/
def setStartedActive (now : Int) (store : Store) : Store :=
  store.map (fun p =>
    if p.2.start_date ≤ now then (p.1, { p.2 with status := true }) else p)

/-- Second bulk update of `update_quiz_status` (src/app.py lines 58-60):
`update_many({"end_date": {"$lte": now}}, {"$set": {"status": False}})`. -/
def setEndedInactive (now : Int) (store : Store) : Store :=
  store.map (fun p =>
    if p.2.end_date ≤ now then (p.1, { p.2 with status := false }) else p)

/-- The Status Reconciler `update_quiz_status` (src/app.py lines 49-60): the
start-update runs first, the end-update second, both with the same `now`. -/
def update_quiz_status (now : Int) (store : Store) : Store :=
  setEndedInactive now (setStartedActive now store)

/-- Projection returned by the listing endpoints: `{_id, question, options}`
rendered as `{"id": str(_id), "question": ..., "options": ...}`. -/
structure QuizView where
  id : String
  question : Option String
  options : List String
deriving DecidableEq, Repr

/-- `get_active_quiz` (src/app.py lines 144-161): `find` with filter
`{"start_date": {"$lte": now}, "end_date": {"$gte": now}}` and projection
`{_id, question, options}`. -/
def get_active_quiz (now : Int) (store : Store) : List QuizView :=
  (store.filter (fun p =>
      decide (p.2.start_date ≤ now) && decide (now ≤ p.2.end_date))).map
    (fun p => ⟨p.1, p.2.question, p.2.options⟩)

/-- Failure kinds of `get_quiz_result`: `abort(400, "Invalid quiz ID")` on
`InvalidId`, `abort(404, ...)` when no document matches, and `abort(403, ...)`
while the grace period has not elapsed. -/
inductive ResultError where
  | invalidId
  | notFound
  | notYetAvailable
deriving DecidableEq, Repr

/-- `get_quiz_result` (src/app.py lines 168-184): `ObjectId(quiz_id)` is
evaluated first (raising `InvalidId` for a malformed id), then the lookup,
then the `now < end_date + timedelta(minutes=5)` grace check. -/
def get_quiz_result (store : Store) (now : Int) (quiz_id : String) :
    Except ResultError Int :=
  if isValidObjectId quiz_id then
    match findById store quiz_id with
    | none => Except.error ResultError.notFound
    | some quiz =>
        if now < quiz.end_date + 300 then
          Except.error ResultError.notYetAvailable
        else
          Except.ok quiz.right_answer
  else
    Except.error ResultError.invalidId

/-- Failure kinds of `create_quiz`: `validation msg` is an `abort(400, msg)`
(the kind the API layer maps to 400); `unhandled exc` is a Python exception
that escapes the view function (Flask answers 500, not 400). -/
inductive CreateError where
  | validation (msg : String)
  | unhandled (exc : String)
deriving DecidableEq, Repr

/-- Is the outcome the validation-error kind (an `abort(400, ...)`)? -/
def isValidationError : Except CreateError Quiz → Bool
  | Except.error (CreateError.validation _) => true
  | _ => false

/-- The JSON request body after `request.get_json()`: the five fields the view
reads with `data.get(...)`, each possibly absent.  Field values are modelled
as strings (form fields always are; the claims about the JSON path only
involve string-typed JSON values). -/
structure JsonBody where
  question : Option String
  options : Option String
  rightAnswer : Option String
  startDate : Option String
  endDate : Option String
deriving DecidableEq, Repr

/-- The form-encoded body: the five fields read with `request.form.get(...)`,
in source order (src/app.py lines 96-100). -/
structure FormBody where
  question : Option String
  rightAnswer : Option String
  options : Option String
  startDate : Option String
  endDate : Option String
deriving DecidableEq, Repr

/-- A creation request as dispatched on `Content-Type`:
`application/json` (with `json none` modelling `get_json()` returning `None`),
`application/x-www-form-urlencoded`, or anything else. -/
inductive Request where
  | json (body : Option JsonBody)
  | form (body : FormBody)
  | other
deriving DecidableEq, Repr

/-- Common tail of `create_quiz` (src/app.py lines 119-137): the
`rightAnswer` range check, the date-order check, then insertion of
`Quiz(question, options, right_answer, start_date, end_date)` whose `status`
is `False`. -/
def finishCreate (question : Option String) (options : List String)
    (right_answer : Int) (start_date end_date : Int) :
    Except CreateError Quiz :=
  if right_answer < 1 ∨ right_answer > (options.length : Int) then
    Except.error (CreateError.validation "Invalid rightAnswer index")
  else if start_date ≥ end_date then
    Except.error
      (CreateError.validation "End date must be a date after the start date")
  else
    Except.ok ⟨question, options, right_answer, start_date, end_date, false⟩

/-- `create_quiz` (src/app.py lines 77-137), parameterised by the
`datetime.fromisoformat` parser.  Evaluation order follows the source:

JSON branch (lines 78-90): `data.get("question")` (kept as-is, possibly
`None`), `data.get("options").split(",")` (an absent value raises
`AttributeError` on `None`), `int(data.get("rightAnswer"))` (`TypeError` on
`None`, `ValueError` on a non-integer string), then `fromisoformat` on
`startDate` and `endDate` (`TypeError` on `None`, `ValueError` on a malformed
string).  None of these exceptions is caught, so each is `unhandled`.

Form branch (lines 95-114): `request.form.get` for each field,
`str(...)`-coercion of `options` (so it is never `None`), the empty-string
guard of lines 102-109 (whose final conjunct
`entered_options_data is None and data is None` is always `False` because the
`str(...)` result is never `None`, short-circuiting before the out-of-scope
`data`), then the same split/int/parse sequence.

Any other content type: `abort(400, "Unsupported Media Type or empty body")`. -/
def create_quiz (parseDate : String → Option Int) (req : Request) :
    Except CreateError Quiz :=
  match req with
  | Request.json none =>
      Except.error
        (CreateError.validation "Invalid request body. JSON data expected.")
  | Request.json (some data) =>
      let question := data.question
      match data.options with
      | none => Except.error (CreateError.unhandled "AttributeError")
      | some options_raw =>
          let options := splitTrim options_raw
          match data.rightAnswer with
          | none => Except.error (CreateError.unhandled "TypeError")
          | some ra_str =>
              match pyInt? ra_str with
              | none => Except.error (CreateError.unhandled "ValueError")
              | some right_answer =>
                  match data.startDate with
                  | none => Except.error (CreateError.unhandled "TypeError")
                  | some sd_str =>
                      match parseDate sd_str with
                      | none =>
                          Except.error (CreateError.unhandled "ValueError")
                      | some start_date =>
                          match data.endDate with
                          | none =>
                              Except.error (CreateError.unhandled "TypeError")
                          | some ed_str =>
                              match parseDate ed_str with
                              | none =>
                                  Except.error
                                    (CreateError.unhandled "ValueError")
                              | some end_date =>
                                  finishCreate question options right_answer
                                    start_date end_date
  | Request.form fd =>
      let question := fd.question
      let entered_right_answer := fd.rightAnswer
      let entered_options_data := pyStr fd.options
      let entered_start_date := fd.startDate
      let entered_end_date := fd.endDate
      if entered_right_answer == some "" || entered_start_date == some "" ||
          entered_end_date == some "" then
        Except.error (CreateError.validation "Invalid request body. Missing Data.")
      else
        let options := splitTrim entered_options_data
        match entered_right_answer with
        | none => Except.error (CreateError.unhandled "TypeError")
        | some ra_str =>
            match pyInt? ra_str with
            | none => Except.error (CreateError.unhandled "ValueError")
            | some right_answer =>
                match entered_start_date with
                | none => Except.error (CreateError.unhandled "TypeError")
                | some sd_str =>
                    match parseDate sd_str with
                    | none => Except.error (CreateError.unhandled "ValueError")
                    | some start_date =>
                        match entered_end_date with
                        | none =>
                            Except.error (CreateError.unhandled "TypeError")
                        | some ed_str =>
                            match parseDate ed_str with
                            | none =>
                                Except.error
                                  (CreateError.unhandled "ValueError")
                            | some end_date =>
                                finishCreate question options right_answer
                                  start_date end_date
  | Request.other =>
      Except.error
        (CreateError.validation "Unsupported Media Type or empty body")

/-- Reassign every quiz's cached `status` flag arbitrarily (used to state that
a computation is independent of the cached flag). -/
def setStatuses (f : String → Quiz → Bool) (store : Store) : Store :=
  store.map (fun p => (p.1, { p.2 with status := f p.1 p.2 }))

/-- A concrete `fromisoformat` table used by concrete instances: `"d1"`
parses to time 0, `"d2"` to time 100, everything else is malformed. -/
def pd0 : String → Option Int :=
  fun s => if s = "d1" then some 0 else if s = "d2" then some 100 else none

/-- The two sequential bulk updates of a Reconciler run act on each stored
document independently: a run is the elementwise map that clears the flag when
`end_date <= now`, otherwise sets it when `start_date <= now`, and otherwise
leaves the document untouched. -/
theorem update_quiz_status_eq_map (now : Int) (store : Store) :
    update_quiz_status now store = store.map (fun p =>
      if p.2.end_date ≤ now then (p.1, { p.2 with status := false })
      else if p.2.start_date ≤ now then (p.1, { p.2 with status := true })
      else p) := by
  unfold update_quiz_status setEndedInactive setStartedActive
  rw [List.map_map]
  apply List.map_congr_left
  intro p _
  by_cases hs : p.2.start_date ≤ now <;> by_cases he : p.2.end_date ≤ now <;>
    simp [Function.comp, hs, he]

/-- Claim C1: for every stored quiz with a valid id, `get_quiz_result` fails
with the not-yet-available error exactly while `now < end_date + 5 minutes`,
and for every `now >= end_date + 5 minutes` it returns the stored 1-based
`right_answer`. -/
theorem get_result_grace_period (store : Store) (now : Int) (quiz_id : String)
    (q : Quiz) (hvalid : isValidObjectId quiz_id = true)
    (hfind : findById store quiz_id = some q) :
    (now < q.end_date + 300 →
      get_quiz_result store now quiz_id = Except.error ResultError.notYetAvailable)
    ∧ (q.end_date + 300 ≤ now →
      get_quiz_result store now quiz_id = Except.ok q.right_answer) := by
  unfold get_quiz_result
  rw [hvalid, hfind]
  constructor
  · intro h
    simp [h]
  · intro h
    simp [not_lt.mpr h]

/-- Witness for C1, realising Scenario B with grace boundary at 300 seconds:
one second before the grace period elapses the result is withheld, at exactly
`end_date + 300` the stored answer `2` is returned. -/
theorem get_result_grace_period_witness :
    get_quiz_result [("0123456789abcdef01234567",
        ⟨some "q", ["a", "b", "c"], 2, -100, 0, false⟩)] 299
        "0123456789abcdef01234567"
      = Except.error ResultError.notYetAvailable
    ∧ get_quiz_result [("0123456789abcdef01234567",
        ⟨some "q", ["a", "b", "c"], 2, -100, 0, false⟩)] 300
        "0123456789abcdef01234567"
      = Except.ok 2 :=
  ⟨(get_result_grace_period _ 299 _ ⟨some "q", ["a", "b", "c"], 2, -100, 0, false⟩
      (by decide) (by decide)).1 (by decide),
   (get_result_grace_period _ 300 _ ⟨some "q", ["a", "b", "c"], 2, -100, 0, false⟩
      (by decide) (by decide)).2 (by decide)⟩

/-- Claim C9: `get_quiz_result` fails with the invalid-id error exactly when
the id string is not a structurally valid ObjectId, and with the not-found
error exactly when the id is valid but no stored quiz has it; the two failure
kinds are therefore never confused. -/
theorem get_result_id_errors (store : Store) (now : Int) (quiz_id : String) :
    (get_quiz_result store now quiz_id = Except.error ResultError.invalidId ↔
      isValidObjectId quiz_id = false)
    ∧ (get_quiz_result store now quiz_id = Except.error ResultError.notFound ↔
      (isValidObjectId quiz_id = true ∧ findById store quiz_id = none)) := by
  unfold get_quiz_result
  by_cases hvalid : isValidObjectId quiz_id
  · rw [if_pos hvalid]
    match hfind : findById store quiz_id with
    | none => simp [hvalid]
    | some q =>
        by_cases h : now < q.end_date + 300 <;> simp [hvalid, h]
  · rw [if_neg hvalid]
    simp [hvalid]

/-- Claim C8: a Reconciler run is idempotent — running `update_quiz_status`
twice in immediate succession with the same `now` leaves every quiz's cached
flag (and the whole store) as a single run does. -/
theorem update_quiz_status_idempotent (now : Int) (store : Store) :
    update_quiz_status now (update_quiz_status now store) =
      update_quiz_status now store := by
  rw [update_quiz_status_eq_map, update_quiz_status_eq_map, List.map_map]
  apply List.map_congr_left
  intro p _
  by_cases hs : p.2.start_date ≤ now <;> by_cases he : p.2.end_date ≤ now <;>
    simp [Function.comp, hs, he]

/-- Counterexample to claim C3: a quiz whose window is `[0, 10]`, reconciled
at `now = 10`, ends with `status = false` even though
`start_date <= now <= end_date` holds — the end-update uses `end_date <= now`,
so at `now = end_date` the flag is cleared while the window still contains
`now`. -/
theorem reconcile_boundary_counterexample :
    ((update_quiz_status 10
        [("0123456789abcdef01234567", ⟨some "q", ["a", "b"], 1, 0, 10, false⟩)]).map
      (fun p => p.2.status)) = [false]
    ∧ (0 : Int) ≤ 10 ∧ (10 : Int) ≤ 10 := by
  refine ⟨rfl, by norm_num, by norm_num⟩

/-- Claim C3 as amended: immediately after a Reconciler run at `now`, a quiz
whose flag was `false` going into the run (as at creation), or whose
`start_date <= now`, has its flag set exactly when
`start_date <= now < end_date` — strict at the end, because the end-update
(applied second, with the same `now`) clears the flag already at
`now = end_date`.  (A quiz with `now < start_date` keeps its previous flag,
so the hypothesis on the prior flag cannot be dropped.) -/
theorem quiz_status_after_reconcile (now : Int) (store : Store) (j : Nat)
    (p p' : String × Quiz) (hp : store[j]? = some p)
    (hp' : (update_quiz_status now store)[j]? = some p')
    (hprev : p.2.status = false ∨ p.2.start_date ≤ now) :
    (p'.2.status = true ↔ (p.2.start_date ≤ now ∧ now < p.2.end_date)) := by
  rw [update_quiz_status_eq_map, List.getElem?_map, hp] at hp'
  simp only [Option.map_some', Option.some.injEq] at hp'
  subst hp'
  by_cases he : p.2.end_date ≤ now
  · rw [if_pos he]
    simp [not_lt.mpr he]
  · rw [if_neg he]
    by_cases hs : p.2.start_date ≤ now
    · rw [if_pos hs]
      simp [hs, not_le.mp he]
    · rw [if_neg hs]
      rcases hprev with hfalse | hstart
      · simp [hfalse, hs]
      · exact absurd hstart hs

/-- Witness for the amended C3: a freshly created (inactive) quiz with window
`[0, 10]`, reconciled at `now = 5`, is active, and indeed `0 <= 5 < 10`. -/
theorem quiz_status_after_reconcile_witness :
    ((("0123456789abcdef01234567",
        ⟨some "q", ["a", "b"], 1, 0, 10, true⟩) : String × Quiz).2.status = true
      ↔ ((0 : Int) ≤ 5 ∧ (5 : Int) < 10)) :=
  quiz_status_after_reconcile 5
    [("0123456789abcdef01234567", ⟨some "q", ["a", "b"], 1, 0, 10, false⟩)] 0
    ("0123456789abcdef01234567", ⟨some "q", ["a", "b"], 1, 0, 10, false⟩)
    ("0123456789abcdef01234567", ⟨some "q", ["a", "b"], 1, 0, 10, true⟩)
    rfl rfl (Or.inl rfl)

/-- Claim C2: `get_active_quiz` returns exactly the projections of the stored
quizzes whose window contains `now` (`start_date <= now <= end_date`), each
item carrying only id, question and options; and the listing is unchanged by
arbitrarily rewriting every cached `status` flag in the store. -/
theorem active_listing_window (now : Int) (store : Store) :
    (∀ v : QuizView, v ∈ get_active_quiz now store ↔
      ∃ p : String × Quiz, p ∈ store ∧ p.2.start_date ≤ now ∧
        now ≤ p.2.end_date ∧ v = ⟨p.1, p.2.question, p.2.options⟩)
    ∧ (∀ f : String → Quiz → Bool,
        get_active_quiz now (setStatuses f store) = get_active_quiz now store) := by
  constructor
  · intro v
    simp only [get_active_quiz, List.mem_map, List.mem_filter, Bool.and_eq_true,
      decide_eq_true_eq]
    constructor
    · rintro ⟨p, ⟨hmem, hs, he⟩, rfl⟩
      exact ⟨p, hmem, hs, he, rfl⟩
    · rintro ⟨p, hmem, hs, he, rfl⟩
      exact ⟨p, ⟨hmem, hs, he⟩, rfl⟩
  · intro f
    unfold get_active_quiz setStatuses
    rw [List.filter_map, List.map_map]
    rfl

/-- A JSON creation request whose fields are all present, whose `rightAnswer`
parses and whose dates parse reduces to the common validation tail. -/
theorem create_quiz_json_reduces (parseDate : String → Option Int)
    (q : Option String) (os ras sds eds : String) (n t u : Int)
    (hra : pyInt? ras = some n) (hsd : parseDate sds = some t)
    (hed : parseDate eds = some u) :
    create_quiz parseDate (Request.json
        (some ⟨q, some os, some ras, some sds, some eds⟩))
      = finishCreate q (splitTrim os) n t u := by
  simp [create_quiz, hra, hsd, hed]

/-- A form-encoded creation request with non-empty `rightAnswer`/`startDate`/
`endDate` strings, a parsing `rightAnswer` and parsing dates reduces to the
common validation tail; the `options` field may be absent (`str(None)`). -/
theorem create_quiz_form_reduces (parseDate : String → Option Int)
    (q opts : Option String) (ras sds eds : String) (n t u : Int)
    (h1 : ras ≠ "") (h2 : sds ≠ "") (h3 : eds ≠ "")
    (hra : pyInt? ras = some n) (hsd : parseDate sds = some t)
    (hed : parseDate eds = some u) :
    create_quiz parseDate (Request.form ⟨q, some ras, opts, some sds, some eds⟩)
      = finishCreate q (splitTrim (pyStr opts)) n t u := by
  simp [create_quiz, h1, h2, h3, hra, hsd, hed]

/-- Counterexample to claim C4: with a malformed `startDate` (every other
field valid), `create_quiz` does not produce the validation-error kind the
API maps to 400 — the `ValueError` from `datetime.fromisoformat` escapes the
handler uncaught. -/
theorem create_malformed_date_counterexample :
    create_quiz pd0 (Request.json
        (some ⟨some "q", some "a,b", some "2", some "bad-date", some "d2"⟩))
      = Except.error (CreateError.unhandled "ValueError")
    ∧ isValidationError (create_quiz pd0 (Request.json
        (some ⟨some "q", some "a,b", some "2", some "bad-date", some "d2"⟩)))
      = false :=
  ⟨rfl, rfl⟩

/-- Claim C4 as amended: a creation request whose `startDate` or `endDate`
fails to parse is rejected and nothing is persisted, but the failure is an
uncaught parse exception (an internal error, not the validation-error kind
the API layer maps to 400), in both the JSON and the form-encoded paths. -/
theorem create_malformed_date_unhandled (parseDate : String → Option Int)
    (q : Option String) (os ras sds eds : String) (n : Int)
    (hra : pyInt? ras = some n) :
    (parseDate sds = none →
      create_quiz parseDate (Request.json
          (some ⟨q, some os, some ras, some sds, some eds⟩))
        = Except.error (CreateError.unhandled "ValueError")
      ∧ (ras ≠ "" → sds ≠ "" → eds ≠ "" →
        create_quiz parseDate (Request.form ⟨q, some ras, some os, some sds, some eds⟩)
          = Except.error (CreateError.unhandled "ValueError")))
    ∧ (∀ t : Int, parseDate sds = some t → parseDate eds = none →
      create_quiz parseDate (Request.json
          (some ⟨q, some os, some ras, some sds, some eds⟩))
        = Except.error (CreateError.unhandled "ValueError")
      ∧ (ras ≠ "" → sds ≠ "" → eds ≠ "" →
        create_quiz parseDate (Request.form ⟨q, some ras, some os, some sds, some eds⟩)
          = Except.error (CreateError.unhandled "ValueError"))) := by
  refine ⟨fun hsd => ⟨?_, fun h1 h2 h3 => ?_⟩,
    fun t hsd hed => ⟨?_, fun h1 h2 h3 => ?_⟩⟩
  · simp [create_quiz, hra, hsd]
  · simp [create_quiz, h1, h2, h3, hra, hsd]
  · simp [create_quiz, hra, hsd, hed]
  · simp [create_quiz, h1, h2, h3, hra, hsd, hed]

/-- Witness for the amended C4: a malformed `startDate` in the JSON path and
a malformed `endDate` in the form path both end in the uncaught parse
exception. -/
theorem create_malformed_date_unhandled_witness :
    create_quiz pd0 (Request.json
        (some ⟨some "q", some "a,b", some "1", some "nope", some "d2"⟩))
      = Except.error (CreateError.unhandled "ValueError")
    ∧ create_quiz pd0
        (Request.form ⟨some "q", some "1", some "a,b", some "d1", some "nope"⟩)
      = Except.error (CreateError.unhandled "ValueError") :=
  ⟨((create_malformed_date_unhandled pd0 (some "q") "a,b" "1" "nope" "d2" 1 rfl).1
      rfl).1,
   ((create_malformed_date_unhandled pd0 (some "q") "a,b" "1" "d1" "nope" 1 rfl).2
      0 rfl rfl).2 (by decide) (by decide) (by decide)⟩

/-- Counterexample to claim C5: a JSON request with `question` absent and a
single-entry `options` string is persisted unchanged — `create_quiz` neither
checks that `question` is present nor that `options` has at least 2 entries. -/
theorem create_no_option_minimum_counterexample :
    create_quiz pd0 (Request.json (some ⟨none, some "a", some "1", some "d1", some "d2"⟩))
      = Except.ok ⟨none, ["a"], 1, 0, 100, false⟩
    ∧ ¬ 2 ≤ (["a"] : List String).length :=
  ⟨rfl, by norm_num⟩

/-- Claim C5 as amended: `create_quiz` performs no presence check on
`question` and no 2-entry minimum on `options`; the options are exactly the
comma-split, whitespace-trimmed entries of the `options` string (a structured
list is not accepted — the JSON path calls `.split` on the raw value — and an
absent JSON `options` raises an uncaught `AttributeError`), and the only
bound on their number is the indirect `1 <= rightAnswer <= len(options)`
range check: any request meeting it (with parseable dates in order) is
persisted, question possibly absent, options possibly a single or empty
string. -/
theorem create_success_characterization (parseDate : String → Option Int)
    (q : Option String) (os ras sds eds : String) (n t u : Int)
    (hra : pyInt? ras = some n) (hsd : parseDate sds = some t)
    (hed : parseDate eds = some u) (hlo : 1 ≤ n)
    (hhi : n ≤ ((splitTrim os).length : Int)) (hlt : t < u) :
    create_quiz parseDate (Request.json
        (some ⟨q, some os, some ras, some sds, some eds⟩))
      = Except.ok ⟨q, splitTrim os, n, t, u, false⟩
    ∧ (ras ≠ "" → sds ≠ "" → eds ≠ "" →
      create_quiz parseDate (Request.form ⟨q, some ras, some os, some sds, some eds⟩)
        = Except.ok ⟨q, splitTrim os, n, t, u, false⟩) := by
  have hrange : ¬ (n < 1 ∨ n > ((splitTrim os).length : Int)) := by
    push_neg
    exact ⟨hlo, hhi⟩
  have hfin : finishCreate q (splitTrim os) n t u
      = Except.ok ⟨q, splitTrim os, n, t, u, false⟩ := by
    unfold finishCreate
    rw [if_neg hrange, if_neg (not_le.mpr hlt)]
  constructor
  · rw [create_quiz_json_reduces parseDate q os ras sds eds n t u hra hsd hed]
    exact hfin
  · intro h1 h2 h3
    rw [create_quiz_form_reduces parseDate q (some os) ras sds eds n t u
      h1 h2 h3 hra hsd hed]
    exact hfin

/-- Witness for the amended C5: a question-less, single-option quiz is
persisted. -/
theorem create_success_characterization_witness :
    create_quiz pd0 (Request.json (some ⟨none, some "x", some "1", some "d1", some "d2"⟩))
      = Except.ok ⟨none, ["x"], 1, 0, 100, false⟩ :=
  (create_success_characterization pd0 none "x" "1" "d1" "d2" 1 0 100 rfl rfl rfl
    (by norm_num) (by decide) (by norm_num)).1

/-- Counterexample to claim C6: a `rightAnswer` that does not parse as an
integer ends in the uncaught `ValueError` from `int(...)`, not in the
validation-error kind the API maps to 400. -/
theorem create_non_integer_answer_counterexample :
    create_quiz pd0 (Request.json
        (some ⟨some "q", some "a,b,c", some "two", some "d1", some "d2"⟩))
      = Except.error (CreateError.unhandled "ValueError")
    ∧ isValidationError (create_quiz pd0 (Request.json
        (some ⟨some "q", some "a,b,c", some "two", some "d1", some "d2"⟩)))
      = false :=
  ⟨rfl, rfl⟩

/-- Claim C6 as amended: when `rightAnswer` parses as an integer outside
`[1, len(options)]` (with parseable dates), `create_quiz` fails with the
validation error "Invalid rightAnswer index"; but a `rightAnswer` that does
not parse as an integer raises an uncaught `ValueError` instead — a different
failure kind than the claim states. -/
theorem create_right_answer_errors (parseDate : String → Option Int)
    (q : Option String) (os ras sds eds : String) (t u : Int)
    (hsd : parseDate sds = some t) (hed : parseDate eds = some u) :
    (∀ n : Int, pyInt? ras = some n →
      (n < 1 ∨ n > ((splitTrim os).length : Int)) →
      create_quiz parseDate (Request.json
          (some ⟨q, some os, some ras, some sds, some eds⟩))
        = Except.error (CreateError.validation "Invalid rightAnswer index")
      ∧ (ras ≠ "" → sds ≠ "" → eds ≠ "" →
        create_quiz parseDate (Request.form ⟨q, some ras, some os, some sds, some eds⟩)
          = Except.error (CreateError.validation "Invalid rightAnswer index")))
    ∧ (pyInt? ras = none →
      create_quiz parseDate (Request.json
          (some ⟨q, some os, some ras, some sds, some eds⟩))
        = Except.error (CreateError.unhandled "ValueError")
      ∧ (ras ≠ "" → sds ≠ "" → eds ≠ "" →
        create_quiz parseDate (Request.form ⟨q, some ras, some os, some sds, some eds⟩)
          = Except.error (CreateError.unhandled "ValueError"))) := by
  constructor
  · intro n hra hr
    have hfin : finishCreate q (splitTrim os) n t u
        = Except.error (CreateError.validation "Invalid rightAnswer index") := by
      unfold finishCreate
      rw [if_pos hr]
    constructor
    · rw [create_quiz_json_reduces parseDate q os ras sds eds n t u hra hsd hed]
      exact hfin
    · intro h1 h2 h3
      rw [create_quiz_form_reduces parseDate q (some os) ras sds eds n t u
        h1 h2 h3 hra hsd hed]
      exact hfin
  · intro hra
    constructor
    · simp [create_quiz, hra]
    · intro h1 h2 h3
      simp [create_quiz, h1, h2, h3, hra]

/-- Witness for the amended C6, realising Scenario C: with 3 options,
`rightAnswer = 0` (JSON path) and `rightAnswer = 4` (form path) are rejected
with the "Invalid rightAnswer index" validation error. -/
theorem create_right_answer_errors_witness :
    create_quiz pd0 (Request.json
        (some ⟨some "q", some "a,b,c", some "0", some "d1", some "d2"⟩))
      = Except.error (CreateError.validation "Invalid rightAnswer index")
    ∧ create_quiz pd0
        (Request.form ⟨some "q", some "4", some "a,b,c", some "d1", some "d2"⟩)
      = Except.error (CreateError.validation "Invalid rightAnswer index") :=
  ⟨((create_right_answer_errors pd0 (some "q") "a,b,c" "0" "d1" "d2" 0 100 rfl rfl).1
      0 rfl (by decide)).1,
   ((create_right_answer_errors pd0 (some "q") "a,b,c" "4" "d1" "d2" 0 100 rfl rfl).1
      4 rfl (by decide)).2 (by decide) (by decide) (by decide)⟩

/-- Claim C7: with a parsed `rightAnswer` and parsed timestamps, every pair
with `start_date >= end_date` (equality included) makes `create_quiz` fail
with a validation error (so nothing is persisted), and whenever
`start_date < end_date` the date-order check never fires. -/
theorem create_rejects_end_before_start (parseDate : String → Option Int)
    (q : Option String) (os ras sds eds : String) (n t u : Int)
    (hra : pyInt? ras = some n) (hsd : parseDate sds = some t)
    (hed : parseDate eds = some u) :
    (u ≤ t →
      isValidationError (create_quiz parseDate (Request.json
          (some ⟨q, some os, some ras, some sds, some eds⟩))) = true
      ∧ isValidationError (create_quiz parseDate
          (Request.form ⟨q, some ras, some os, some sds, some eds⟩)) = true)
    ∧ (t < u →
      create_quiz parseDate (Request.json
          (some ⟨q, some os, some ras, some sds, some eds⟩))
        ≠ Except.error
            (CreateError.validation "End date must be a date after the start date")
      ∧ create_quiz parseDate (Request.form ⟨q, some ras, some os, some sds, some eds⟩)
        ≠ Except.error
            (CreateError.validation "End date must be a date after the start date")) := by
  constructor
  · intro hge
    have hfin : isValidationError (finishCreate q (splitTrim os) n t u) = true := by
      unfold finishCreate
      by_cases hr : n < 1 ∨ n > ((splitTrim os).length : Int)
      · rw [if_pos hr]
        rfl
      · rw [if_neg hr, if_pos hge]
        rfl
    constructor
    · rw [create_quiz_json_reduces parseDate q os ras sds eds n t u hra hsd hed]
      exact hfin
    · by_cases hg : ras = "" ∨ sds = "" ∨ eds = ""
      · have hmiss : create_quiz parseDate
            (Request.form ⟨q, some ras, some os, some sds, some eds⟩)
            = Except.error
                (CreateError.validation "Invalid request body. Missing Data.") := by
          rcases hg with h | h | h <;> subst h <;> simp [create_quiz]
        rw [hmiss]
        rfl
      · push_neg at hg
        rw [create_quiz_form_reduces parseDate q (some os) ras sds eds n t u
          hg.1 hg.2.1 hg.2.2 hra hsd hed]
        exact hfin
  · intro hlt
    have hfin : finishCreate q (splitTrim os) n t u
        ≠ Except.error
            (CreateError.validation "End date must be a date after the start date") := by
      unfold finishCreate
      by_cases hr : n < 1 ∨ n > ((splitTrim os).length : Int)
      · rw [if_pos hr]
        simp
      · rw [if_neg hr, if_neg (not_le.mpr hlt)]
        simp
    constructor
    · rw [create_quiz_json_reduces parseDate q os ras sds eds n t u hra hsd hed]
      exact hfin
    · by_cases hg : ras = "" ∨ sds = "" ∨ eds = ""
      · have hmiss : create_quiz parseDate
            (Request.form ⟨q, some ras, some os, some sds, some eds⟩)
            = Except.error
                (CreateError.validation "Invalid request body. Missing Data.") := by
          rcases hg with h | h | h <;> subst h <;> simp [create_quiz]
        rw [hmiss]
        simp
      · push_neg at hg
        rw [create_quiz_form_reduces parseDate q (some os) ras sds eds n t u
          hg.1 hg.2.1 hg.2.2 hra hsd hed]
        exact hfin

/-- Witness for C7, realising Scenario D: equal timestamps (`"d1"` twice) are
rejected with a validation error, while an in-order pair does not trigger the
date-order message. -/
theorem create_rejects_end_before_start_witness :
    isValidationError (create_quiz pd0 (Request.json
        (some ⟨some "q", some "a,b", some "1", some "d1", some "d1"⟩))) = true
    ∧ create_quiz pd0 (Request.json
        (some ⟨some "q", some "a,b", some "1", some "d1", some "d2"⟩))
      ≠ Except.error
          (CreateError.validation "End date must be a date after the start date") :=
  ⟨((create_rejects_end_before_start pd0 (some "q") "a,b" "1" "d1" "d1" 1 0 0
      rfl rfl rfl).1 (by norm_num)).1,
   ((create_rejects_end_before_start pd0 (some "q") "a,b" "1" "d1" "d2" 1 0 100
      rfl rfl rfl).2 (by norm_num)).1⟩

/-- Claim C10: a form-encoded request that omits `options` entirely is not
rejected as missing data — `str(request.form.get("options"))` coerces the
absent value to the literal string `"None"` — so with `rightAnswer = 1` and
otherwise valid fields a quiz whose options are the single entry `"None"` is
persisted. -/
theorem form_missing_options_persists (parseDate : String → Option Int)
    (q : Option String) (sds eds : String) (t u : Int)
    (hsd : parseDate sds = some t) (hed : parseDate eds = some u) (hlt : t < u)
    (h2 : sds ≠ "") (h3 : eds ≠ "") :
    create_quiz parseDate (Request.form ⟨q, some "1", none, some sds, some eds⟩)
      = Except.ok ⟨q, ["None"], 1, t, u, false⟩ := by
  have hone : pyInt? "1" = some 1 := rfl
  rw [create_quiz_form_reduces parseDate q none "1" sds eds 1 t u
    (by decide) h2 h3 hone hsd hed]
  show finishCreate q ["None"] 1 t u = Except.ok ⟨q, ["None"], 1, t, u, false⟩
  unfold finishCreate
  rw [if_neg (by decide), if_neg (not_le.mpr hlt)]

/-- Witness for C10: the concrete quiz persisted from a form request with no
`options` field. -/
theorem form_missing_options_persists_witness :
    create_quiz pd0 (Request.form ⟨some "q", some "1", none, some "d1", some "d2"⟩)
      = Except.ok ⟨some "q", ["None"], 1, 0, 100, false⟩ :=
  form_missing_options_persists pd0 (some "q") "d1" "d2" 0 100 rfl rfl
    (by norm_num) (by decide) (by decide)

end QuizAPI
